import Mathlib

/-!
Shallow embedding of the `ruvnl-consumer-app` fetch-normalize-merge-persist
pipeline (`src/ruvnl_consumer_app/app.py`) and proofs of the specification
claims about it.

Modelling conventions:
* JSON numbers (megawatt readings, kilowatt powers, rated capacities) are
  modelled as rationals `ℚ`; epoch-second timestamps as `Int` (a UTC instant
  is identified with its epoch-seconds value).
* The network is a function `Nat → Option HttpResponse` giving, for each
  attempt index, either a response or `none` (a `requests.exceptions.Timeout`).
* A response body is `Option RawPayload`: `none` models a body that is not
  well-formed JSON (so `r.json()` raises).
* Exceptions are modelled with `Except`; log output as a list of structured
  `LogEvent`s mirroring the `log.warning` / `log.info` / `log.error` calls.
* The site registry and generation store live in a `DbState` record; the
  SQLAlchemy session's reads and mutating writes become explicit state passing.
-/

/-- Structured model of the log stream produced by the pipeline. Each
constructor corresponds to one `log.*` / stdout call site in `app.py`. -/
inductive LogEvent where
  /-- The `log.error("Timed out")` call in the fetch retry loop. -/
  | timeoutError : LogEvent
  /-- The `log.info(f"Retrying again in {retry_interval} seconds ...")` call, emitted
  just before `time.sleep(retry_interval)` between attempts. -/
  | retryInfo (seconds : Nat) : LogEvent
  /-- The `log.error(error_msg)` call when max retries are exhausted. -/
  | fetchFailedError : LogEvent
  /-- The `log.warning(... Status code ...)` call on a non-200 HTTP status. -/
  | statusWarning (code : Nat) : LogEvent
  /-- The `log.warning(f"Ignoring negative power value: ...")` call. -/
  | negativePowerWarning (power_kw : ℚ) (asset : String) : LogEvent
  /-- The `log.warning("Start time is at least 1 hour old. ...")` call (wind only). -/
  | staleWarning (asset : String) : LogEvent
  /-- The `log.info(f"Found generation data for asset type ...")` call. -/
  | foundInfo (asset : String) (power_kw : ℚ) (start_utc : Int) : LogEvent
  /-- The `log.warning(f"No generation data for asset type: {v}")` call in `fetch_data`. -/
  | noDataWarning (asset : String) : LogEvent
  /-- The `log.warning(f"Could not find site for asset type: ...")` call in `get_sites`. -/
  | noSiteWarning (asset : String) : LogEvent
  /-- The `log.warning(f"No generation data for asset type: ...")` call in
  `save_generation_data` for an empty per-asset group. -/
  | emptyGroupWarning (asset : String) : LogEvent
  /-- The `log.info(f"Updating capacity for site ...")` call. -/
  | capacityUpdateInfo (site_uuid : Nat) (oldCap newCap : ℚ) : LogEvent
  /-- The `log.info(f"Generation data: {asset_type}: ...")` rendering —
  the dry-run human-readable rendering of a group's rows. -/
  | render (asset : String) (rows : List (Nat × Int × ℚ)) : LogEvent
deriving DecidableEq, Repr

/-- A site row of the registry (`LocationSQL`): opaque uuid, asset-type name,
region tag and mutable rated capacity in kW. -/
structure Site where
  location_uuid : Nat
  asset_type : String
  region : String
  capacity_kw : ℚ
deriving DecidableEq, Repr

/-- One tagged sub-record `d["0"]` of the source payload. -/
structure ScadaRecord where
  scada_name : String
  sourceTimeSec : Int
  average2 : ℚ
deriving DecidableEq, Repr

/-- The parsed JSON payload `{"data": [...]}`. -/
structure RawPayload where
  data : List ScadaRecord
deriving DecidableEq, Repr

/-- An HTTP response: status code and body. `body = none` models a body that
is not well-formed JSON. -/
structure HttpResponse where
  status_code : Nat
  body : Option RawPayload
deriving DecidableEq, Repr

/-- A normalized generation record: one row of the DataFrame `fetch_data`
returns (`asset_type`, `start_utc`, `power_kw`). -/
structure GenRecord where
  asset_type : String
  start_utc : Int
  power_kw : ℚ
deriving DecidableEq, Repr

/-- A generation record merged with its site uuid: one row of the DataFrame
`merge_generation_data_with_sites` returns. -/
structure AssocRecord where
  asset_type : String
  start_utc : Int
  power_kw : ℚ
  site_uuid : Nat
deriving DecidableEq, Repr

/-- The database visible to the pipeline: the site registry and the
generation time-series store. -/
structure DbState where
  sites : List Site
  generation_rows : List (Nat × Int × ℚ)
deriving DecidableEq, Repr

/-- The errors `fetch_data` can raise: the `RuntimeError` on exhausted
retries, and the JSON decode error propagating out of `r.json()`. -/
inductive FetchError where
  | maxRetries : FetchError
  | jsonError : FetchError
deriving DecidableEq, Repr

/-- How `get_sites` fails, via `assert len(sites) > 0, ...` — an `AssertionError`
naming the asset type without a site. -/
inductive GetSitesError where
  | assertionError (asset : String) : GetSitesError
deriving DecidableEq, Repr

/-- The constant `max_retries = 5` in `fetch_data`. -/
def max_retries : Nat := 5

/-- The `asset_map = {"WIND GEN": "wind", "SOLAR GEN": "pv"}` dict, in
insertion order. -/
def asset_map : List (String × String) := [("WIND GEN", "wind"), ("SOLAR GEN", "pv")]

/-- The `while retries < max_retries` loop of `fetch_data`, structured on the
number `fuel` of loop iterations still allowed by the guard
(`fuel = max_retries - retries`, so `fuel = 0` means the guard
`retries < max_retries` is false and the loop exits). `net n` is the outcome
of the attempt made when `retries = n` (`none` = `requests.exceptions.Timeout`).
Each iteration: issue the request; on a response break with it; on a timeout
log the error, increment `retries`, raise `RuntimeError` when `retries` hits
`max_retries`, otherwise log the retry message and sleep `retry_interval`
seconds. Returns the loop's outcome (`ok` response, or `error` = the raised
`RuntimeError`), the total number of HTTP attempts issued, and the log events
of the loop. -/
def retryLoopGo {α : Type} (net : Nat → Option α) (retry_interval : Nat) (retries : Nat) :
    Nat → Except Unit α × Nat × List LogEvent
  | 0 => (Except.error (), retries, [])
  | fuel + 1 =>
    match net retries with
    | some r => (Except.ok r, retries + 1, [])
    | none =>
      if retries + 1 = max_retries then
        (Except.error (), retries + 1, [LogEvent.timeoutError, LogEvent.fetchFailedError])
      else
        let rest := retryLoopGo net retry_interval (retries + 1) fuel
        (rest.1, rest.2.1,
          LogEvent.timeoutError :: LogEvent.retryInfo retry_interval :: rest.2.2)

/-- The retry loop as entered by `fetch_data`: `retries = 0`, so the guard
allows `max_retries` iterations. -/
def retryLoop {α : Type} (net : Nat → Option α) (retry_interval : Nat) :
    Except Unit α × Nat × List LogEvent :=
  retryLoopGo net retry_interval 0 max_retries

/-- The body of the `for k, v in asset_map.items()` loop of `fetch_data`:
find the first sub-record named `k`, normalize it to a `GenRecord` tagged `v`
(timestamp as UTC epoch seconds; power = megawatts × 1000), skipping it with
a warning when the power is negative, and warning when a wind record is more
than an hour older than `now`. -/
def processAsset (now : Int) (payload : RawPayload) (k v : String) :
    List GenRecord × List LogEvent :=
  match payload.data.find? (fun d => d.scada_name == k) with
  | none => ([], [LogEvent.noDataWarning v])
  | some record =>
    let start_utc : Int := record.sourceTimeSec
    let power_kw : ℚ := record.average2 * 1000
    if power_kw < 0 then
      ([], [LogEvent.negativePowerWarning power_kw v])
    else
      let staleLogs : List LogEvent :=
        if v = "wind" ∧ start_utc < now - 3600 then [LogEvent.staleWarning v] else []
      ([{ asset_type := v, start_utc := start_utc, power_kw := power_kw }],
        staleLogs ++ [LogEvent.foundInfo v power_kw start_utc])

/-- The full result of one `fetch_data` call: the returned record list or the
raised error, the number of HTTP attempts it issued, and its log events. -/
structure FetchOutcome where
  result : Except FetchError (List GenRecord)
  attempts : Nat
  logs : List LogEvent
deriving Repr

/-- The function `fetch_data(data_url, retry_interval)`: retry loop, then non-200 handling
(warning + empty result), then JSON parsing (`none` body raises), then record
extraction per `asset_map` entry. `now` is the current UTC time in epoch
seconds (used only by the wind staleness warning). -/
def fetch_data (net : Nat → Option HttpResponse) (retry_interval : Nat) (now : Int) :
    FetchOutcome :=
  match retryLoop net retry_interval with
  | (Except.error _, attempts, loopLogs) =>
    ⟨Except.error FetchError.maxRetries, attempts, loopLogs⟩
  | (Except.ok r, attempts, loopLogs) =>
    if r.status_code ≠ 200 then
      ⟨Except.ok [], attempts, loopLogs ++ [LogEvent.statusWarning r.status_code]⟩
    else
      match r.body with
      | none => ⟨Except.error FetchError.jsonError, attempts, loopLogs⟩
      | some payload =>
        let results := asset_map.map (fun kv => processAsset now payload kv.1 kv.2)
        ⟨Except.ok (results.map Prod.fst).flatten, attempts,
          loopLogs ++ (results.map Prod.snd).flatten⟩

/-- The per-asset-type site filter of `get_sites`:
`[s for s in all_sites if s.asset_type.name == asset_type and s.region == "ruvnl"]`. -/
def sitesForAsset (all_sites : List Site) (asset_type : String) : List Site :=
  all_sites.filter (fun s => s.asset_type == asset_type && s.region == "ruvnl")

/-- The function `get_sites(db_session)`: for each watched asset type (`pv` then `wind`)
take the first matching `ruvnl` site; when none exists, log a warning and then
fail the run via `assert len(sites) > 0`. -/
def get_sites (all_sites : List Site) :
    Except GetSitesError (List Site) × List LogEvent :=
  match sitesForAsset all_sites "pv" with
  | [] => (Except.error (GetSitesError.assertionError "pv"), [LogEvent.noSiteWarning "pv"])
  | pv :: _ =>
    match sitesForAsset all_sites "wind" with
    | [] =>
      (Except.error (GetSitesError.assertionError "wind"), [LogEvent.noSiteWarning "wind"])
    | w :: _ => (Except.ok [pv, w], [])

/-- The dict comprehension `{s.asset_type.name: s.location_uuid for s in sites}`
followed by `sites_map[d]`: for duplicate asset-type keys the *last* site in
the list wins (Python dict insertion overwrites). -/
def sitesMapLookup (sites : List Site) (asset : String) : Option Nat :=
  (sites.reverse.find? (fun s => s.asset_type == asset)).map (fun s => s.location_uuid)

/-- The function `merge_generation_data_with_sites(data, sites)`: attach the matching
site's uuid to each record; rows with no matching site (`None` uuid) are
filtered out. -/
def merge_generation_data_with_sites (data : List GenRecord) (sites : List Site) :
    List AssocRecord :=
  data.filterMap (fun r =>
    (sitesMapLookup sites r.asset_type).map (fun uuid =>
      { asset_type := r.asset_type, start_utc := r.start_utc,
        power_kw := r.power_kw, site_uuid := uuid }))

/-- The maximum `asset_data["power_kw"].max()` over a (non-empty) per-asset group. -/
def groupMax (rows : List AssocRecord) : ℚ :=
  match rows with
  | [] => 0
  | r :: rs => rs.foldl (fun acc x => max acc x.power_kw) r.power_kw

/-- The mutation `site.capacity_kw = max_power` through the session: the query
`filter(LocationSQL.location_uuid == site_uuid).first()` returns the first
matching row, and only that row's capacity is overwritten. -/
def setCapFirst : List Site → Nat → ℚ → List Site
  | [], _, _ => []
  | s :: rest, uuid, cap =>
    if s.location_uuid == uuid then { s with capacity_kw := cap } :: rest
    else s :: setCapFirst rest uuid cap

/-- The `site_uuid, start_utc, power_kw` row a record inserts, after the
`asset_type` column is dropped. -/
def rowOf (r : AssocRecord) : Nat × Int × ℚ := (r.site_uuid, r.start_utc, r.power_kw)

/-- The body of the `for asset_type in ["pv", "wind"]` loop of
`save_generation_data`, for one per-asset-type group: warn and skip an empty
group; when writing, apply the capacity correction (look up the group's site
by the first row's uuid; if the observed maximum power exceeds its capacity,
raise the capacity) and append the group's rows to the store; when not
writing, render the rows to the log instead. -/
def saveAssetGroup (db : DbState) (asset_type : String) (asset_data : List AssocRecord)
    (write_to_db : Bool) : DbState × List LogEvent :=
  match asset_data with
  | [] => (db, [LogEvent.emptyGroupWarning asset_type])
  | first :: _ =>
    let capStep : DbState × List LogEvent :=
      if write_to_db then
        let site_uuid := first.site_uuid
        let max_power := groupMax asset_data
        match db.sites.find? (fun s => s.location_uuid == site_uuid) with
        | some site =>
          if max_power > site.capacity_kw then
            ({ db with sites := setCapFirst db.sites site_uuid max_power },
              [LogEvent.capacityUpdateInfo site_uuid site.capacity_kw max_power])
          else (db, [])
        | none => (db, [])
      else (db, [])
    let rows := asset_data.map rowOf
    if write_to_db then
      ({ capStep.1 with generation_rows := capStep.1.generation_rows ++ rows }, capStep.2)
    else
      (capStep.1, capStep.2 ++ [LogEvent.render asset_type rows])

/-- The function `save_generation_data(db_session, generation_data, write_to_db)`: process
the `pv` group, then the `wind` group, threading the database state. -/
def save_generation_data (db : DbState) (generation_data : List AssocRecord)
    (write_to_db : Bool) : DbState × List LogEvent :=
  let step1 :=
    saveAssetGroup db "pv"
      (generation_data.filter (fun r => r.asset_type == "pv")) write_to_db
  let step2 :=
    saveAssetGroup step1.1 "wind"
      (generation_data.filter (fun r => r.asset_type == "wind")) write_to_db
  (step2.1, step1.2 ++ step2.2)

/-! ### Helper lemmas -/

/-- On a response at the first attempt and a 200 status with a parsed body,
`fetch_data` issues exactly one request and returns the records and logs of
the two `asset_map` extraction steps. -/
theorem fetch_data_success_shape (net : Nat → Option HttpResponse) (resp : HttpResponse)
    (payload : RawPayload) (retry_interval : Nat) (now : Int)
    (h0 : net 0 = some resp) (hs : resp.status_code = 200) (hb : resp.body = some payload) :
    fetch_data net retry_interval now =
      ⟨Except.ok ((processAsset now payload "WIND GEN" "wind").1
          ++ (processAsset now payload "SOLAR GEN" "pv").1),
        1,
        (processAsset now payload "WIND GEN" "wind").2
          ++ (processAsset now payload "SOLAR GEN" "pv").2⟩ := by
  simp [fetch_data, retryLoop, retryLoopGo, max_retries, asset_map, h0, hs, hb]

/-- Every record produced by one `processAsset` step is tagged with that
step's asset type. -/
theorem processAsset_asset_type (now : Int) (payload : RawPayload) (k v : String) :
    ∀ g ∈ (processAsset now payload k v).1, g.asset_type = v := by
  intro g hg
  unfold processAsset at hg
  rcases hfind : payload.data.find? (fun d => d.scada_name == k) with _ | record <;>
    rw [hfind] at hg
  · simp at hg
  · by_cases hneg : record.average2 * 1000 < 0 <;> simp [hneg] at hg
    rw [hg]

/-! ### Claim theorems -/

/-- C2: against an endpoint that always times out, `fetch_data` makes exactly
5 HTTP attempts (`max_retries = 5`), sleeping `retry_interval` seconds (with
the retry log message) between consecutive attempts, and its exhaustion
outcome is the single consistent policy of a raised terminal failure (the
`RuntimeError`), never an empty result set. -/
theorem fetch_exhausted_retries (net : Nat → Option HttpResponse)
    (retry_interval : Nat) (now : Int) (h : ∀ n, net n = none) :
    fetch_data net retry_interval now =
      ⟨Except.error FetchError.maxRetries, max_retries,
        [LogEvent.timeoutError, LogEvent.retryInfo retry_interval,
         LogEvent.timeoutError, LogEvent.retryInfo retry_interval,
         LogEvent.timeoutError, LogEvent.retryInfo retry_interval,
         LogEvent.timeoutError, LogEvent.retryInfo retry_interval,
         LogEvent.timeoutError, LogEvent.fetchFailedError]⟩ := by
  have he : net = fun _ => none := funext h
  subst he
  rfl

/-- Witness for C2 at the concrete always-timing-out endpoint. -/
theorem fetch_exhausted_retries_witness :
    fetch_data (fun _ => none) 30 0 =
      ⟨Except.error FetchError.maxRetries, max_retries,
        [LogEvent.timeoutError, LogEvent.retryInfo 30,
         LogEvent.timeoutError, LogEvent.retryInfo 30,
         LogEvent.timeoutError, LogEvent.retryInfo 30,
         LogEvent.timeoutError, LogEvent.retryInfo 30,
         LogEvent.timeoutError, LogEvent.fetchFailedError]⟩ :=
  fetch_exhausted_retries (fun _ => none) 30 0 (fun _ => rfl)

/-- C7: a response with a non-success HTTP status is non-fatal: `fetch_data`
logs a warning with the status code and returns an empty result set after a
single attempt (no retry). -/
theorem fetch_bad_status (net : Nat → Option HttpResponse) (resp : HttpResponse)
    (retry_interval : Nat) (now : Int)
    (h0 : net 0 = some resp) (hs : resp.status_code ≠ 200) :
    fetch_data net retry_interval now =
      ⟨Except.ok [], 1, [LogEvent.statusWarning resp.status_code]⟩ := by
  simp [fetch_data, retryLoop, retryLoopGo, max_retries, h0, hs]

/-- Witness for C7 at a concrete endpoint answering 404. -/
theorem fetch_bad_status_witness :
    fetch_data (fun _ => some ⟨404, none⟩) 30 0 =
      ⟨Except.ok [], 1, [LogEvent.statusWarning 404]⟩ :=
  fetch_bad_status (fun _ => some ⟨404, none⟩) ⟨404, none⟩ 30 0 rfl (by decide)

/-- C8: a successful (200) response whose body is not well-formed JSON makes
`fetch_data` raise the fatal JSON decode error after a single attempt: it is
not retried and propagates to the caller. -/
theorem fetch_malformed_json (net : Nat → Option HttpResponse) (resp : HttpResponse)
    (retry_interval : Nat) (now : Int)
    (h0 : net 0 = some resp) (hs : resp.status_code = 200) (hb : resp.body = none) :
    fetch_data net retry_interval now =
      ⟨Except.error FetchError.jsonError, 1, []⟩ := by
  simp [fetch_data, retryLoop, retryLoopGo, max_retries, h0, hs, hb]

/-- Witness for C8 at a concrete endpoint answering 200 with a malformed body. -/
theorem fetch_malformed_json_witness :
    fetch_data (fun _ => some ⟨200, none⟩) 30 0 =
      ⟨Except.error FetchError.jsonError, 1, []⟩ :=
  fetch_malformed_json (fun _ => some ⟨200, none⟩) ⟨200, none⟩ 30 0 rfl rfl rfl

/-- A `processAsset` step whose found record has negative computed power
produces no record and exactly the negative-power warning. -/
theorem processAsset_negative (now : Int) (payload : RawPayload) (k v : String)
    (record : ScadaRecord)
    (hfind : payload.data.find? (fun d => d.scada_name == k) = some record)
    (hneg : record.average2 * 1000 < 0) :
    processAsset now payload k v =
      ([], [LogEvent.negativePowerWarning (record.average2 * 1000) v]) := by
  simp [processAsset, hfind, hneg]

/-- C4: for a payload containing records for both watched source names (with
valid, non-negative readings), `fetch_data` returns exactly 2 records — the
wind one then the pv one — each with `power_kw` equal to 1000 × the source
megawatt value `Average2` and `start_utc` the UTC instant of the source
`SourceTimeSec` epoch value. -/
theorem fetch_both_assets (net : Nat → Option HttpResponse) (resp : HttpResponse)
    (payload : RawPayload) (rw rs : ScadaRecord) (retry_interval : Nat) (now : Int)
    (h0 : net 0 = some resp) (hs : resp.status_code = 200) (hb : resp.body = some payload)
    (hw : payload.data.find? (fun d => d.scada_name == "WIND GEN") = some rw)
    (hsol : payload.data.find? (fun d => d.scada_name == "SOLAR GEN") = some rs)
    (hnw : ¬rw.average2 * 1000 < 0) (hns : ¬rs.average2 * 1000 < 0) :
    (fetch_data net retry_interval now).result =
      Except.ok
        [{ asset_type := "wind", start_utc := rw.sourceTimeSec,
           power_kw := rw.average2 * 1000 },
         { asset_type := "pv", start_utc := rs.sourceTimeSec,
           power_kw := rs.average2 * 1000 }] := by
  rw [fetch_data_success_shape net resp payload retry_interval now h0 hs hb]
  simp [processAsset, hw, hsol, hnw, hns]

/-- Witness for C4 at the spec's end-to-end mock payload
(`WIND GEN` 5 MW, `SOLAR GEN` 3 MW at epoch 1612087260). -/
theorem fetch_both_assets_witness :
    (fetch_data
        (fun _ => some ⟨200, some ⟨[⟨"WIND GEN", 1612087260, 5⟩,
                                    ⟨"SOLAR GEN", 1612087260, 3⟩]⟩⟩)
        30 1612087260).result =
      Except.ok
        [{ asset_type := "wind", start_utc := 1612087260, power_kw := 5 * 1000 },
         { asset_type := "pv", start_utc := 1612087260, power_kw := 3 * 1000 }] :=
  fetch_both_assets
    (fun _ => some ⟨200, some ⟨[⟨"WIND GEN", 1612087260, 5⟩, ⟨"SOLAR GEN", 1612087260, 3⟩]⟩⟩)
    ⟨200, some ⟨[⟨"WIND GEN", 1612087260, 5⟩, ⟨"SOLAR GEN", 1612087260, 3⟩]⟩⟩
    ⟨[⟨"WIND GEN", 1612087260, 5⟩, ⟨"SOLAR GEN", 1612087260, 3⟩]⟩
    ⟨"WIND GEN", 1612087260, 5⟩ ⟨"SOLAR GEN", 1612087260, 3⟩ 30 1612087260
    rfl rfl rfl (by decide) (by decide) (by norm_num) (by norm_num)

/-- C9: when the first payload record for a watched source name has negative
computed power (after the ×1000 conversion), `fetch_data` logs the
negative-power warning for that asset type and excludes the record: no record
of that asset type appears in the result. -/
theorem fetch_negative_power (net : Nat → Option HttpResponse) (resp : HttpResponse)
    (payload : RawPayload) (record : ScadaRecord) (k v : String)
    (retry_interval : Nat) (now : Int)
    (h0 : net 0 = some resp) (hs : resp.status_code = 200) (hb : resp.body = some payload)
    (hkv : (k, v) ∈ asset_map)
    (hfind : payload.data.find? (fun d => d.scada_name == k) = some record)
    (hneg : record.average2 * 1000 < 0) :
    LogEvent.negativePowerWarning (record.average2 * 1000) v
        ∈ (fetch_data net retry_interval now).logs
    ∧ ∃ l, (fetch_data net retry_interval now).result = Except.ok l
        ∧ ∀ g ∈ l, g.asset_type ≠ v := by
  rw [fetch_data_success_shape net resp payload retry_interval now h0 hs hb]
  have hdrop := processAsset_negative now payload k v record hfind hneg
  simp [asset_map] at hkv
  rcases hkv with ⟨rfl, rfl⟩ | ⟨rfl, rfl⟩
  · refine ⟨by simp [hdrop], _, rfl, ?_⟩
    intro g hg
    simp [hdrop] at hg
    rw [processAsset_asset_type now payload "SOLAR GEN" "pv" g hg]
    decide
  · refine ⟨by simp [hdrop], _, rfl, ?_⟩
    intro g hg
    simp [hdrop] at hg
    rw [processAsset_asset_type now payload "WIND GEN" "wind" g hg]
    decide

/-- Witness for C9: a payload whose `WIND GEN` reading is −1 MW — the wind
record is dropped with a warning, the pv record survives. -/
theorem fetch_negative_power_witness :
    LogEvent.negativePowerWarning ((-1 : ℚ) * 1000) "wind"
        ∈ (fetch_data
            (fun _ => some ⟨200, some ⟨[⟨"WIND GEN", 1612087260, -1⟩,
                                        ⟨"SOLAR GEN", 1612087260, 3⟩]⟩⟩)
            30 1612087260).logs
    ∧ ∃ l, (fetch_data
            (fun _ => some ⟨200, some ⟨[⟨"WIND GEN", 1612087260, -1⟩,
                                        ⟨"SOLAR GEN", 1612087260, 3⟩]⟩⟩)
            30 1612087260).result = Except.ok l
        ∧ ∀ g ∈ l, g.asset_type ≠ "wind" :=
  fetch_negative_power
    (fun _ => some ⟨200, some ⟨[⟨"WIND GEN", 1612087260, -1⟩, ⟨"SOLAR GEN", 1612087260, 3⟩]⟩⟩)
    ⟨200, some ⟨[⟨"WIND GEN", 1612087260, -1⟩, ⟨"SOLAR GEN", 1612087260, 3⟩]⟩⟩
    ⟨[⟨"WIND GEN", 1612087260, -1⟩, ⟨"SOLAR GEN", 1612087260, 3⟩]⟩
    ⟨"WIND GEN", 1612087260, -1⟩ "WIND GEN" "wind" 30 1612087260
    rfl rfl rfl (by decide) (by decide) (by norm_num)

/-- C3 counterexample: a registry holding a `ruvnl` pv site but no wind site.
The claim says `get_sites` warns and merely excludes the wind asset type
without failing the run; in fact it fails the run with an `AssertionError`
and returns no site list at all. -/
theorem get_sites_missing_wind_fails :
    (get_sites [⟨1, "pv", "ruvnl", 100⟩]).1
        = Except.error (GetSitesError.assertionError "wind")
    ∧ ∀ l : List Site, (get_sites [⟨1, "pv", "ruvnl", 100⟩]).1 ≠ Except.ok l := by
  refine ⟨rfl, ?_⟩
  intro l h
  exact Except.noConfusion h

/-- C3 (amended): when the registry has no `ruvnl` site for some watched
asset type, `get_sites` logs the missing-site warning for a watched asset
type that has no site and then fails the run with an `AssertionError` naming
it (the asset type is never silently excluded). -/
theorem get_sites_missing_asset_aborts (all_sites : List Site) (a : String)
    (ha : a ∈ ["pv", "wind"]) (hempty : sitesForAsset all_sites a = []) :
    ∃ b ∈ ["pv", "wind"], sitesForAsset all_sites b = []
      ∧ (get_sites all_sites).1 = Except.error (GetSitesError.assertionError b)
      ∧ LogEvent.noSiteWarning b ∈ (get_sites all_sites).2 := by
  rcases hpv : sitesForAsset all_sites "pv" with _ | ⟨p, ps⟩
  · exact ⟨"pv", by simp, hpv, by simp [get_sites, hpv], by simp [get_sites, hpv]⟩
  · rcases hw : sitesForAsset all_sites "wind" with _ | ⟨w, ws⟩
    · exact ⟨"wind", by simp, hw, by simp [get_sites, hpv, hw], by simp [get_sites, hpv, hw]⟩
    · exfalso
      simp at ha
      rcases ha with rfl | rfl
      · rw [hempty] at hpv
        exact List.noConfusion hpv
      · rw [hempty] at hw
        exact List.noConfusion hw

/-- Witness for the amended C3 at the concrete pv-only registry. -/
theorem get_sites_missing_asset_aborts_witness :
    ∃ b ∈ ["pv", "wind"], sitesForAsset [⟨1, "pv", "ruvnl", 100⟩] b = []
      ∧ (get_sites [⟨1, "pv", "ruvnl", 100⟩]).1
          = Except.error (GetSitesError.assertionError b)
      ∧ LogEvent.noSiteWarning b ∈ (get_sites [⟨1, "pv", "ruvnl", 100⟩]).2 :=
  get_sites_missing_asset_aborts [⟨1, "pv", "ruvnl", 100⟩] "wind" (by decide) (by decide)

/-- A successful `sitesMapLookup` returns the uuid of a site of the looked-up
asset type. -/
theorem sitesMapLookup_some (sites : List Site) (a : String) (u : Nat)
    (h : sitesMapLookup sites a = some u) :
    ∃ s ∈ sites, s.asset_type = a ∧ s.location_uuid = u := by
  unfold sitesMapLookup at h
  rcases hf : sites.reverse.find? (fun s => s.asset_type == a) with _ | s <;> rw [hf] at h
  · exact Option.noConfusion h
  · have hmem : s ∈ sites := List.mem_reverse.mp (List.mem_of_find?_eq_some hf)
    have hty : s.asset_type = a := by simpa using List.find?_some hf
    have hu : s.location_uuid = u := by simpa using h
    exact ⟨s, hmem, hty, hu⟩

/-- When some site has the looked-up asset type, `sitesMapLookup` succeeds. -/
theorem sitesMapLookup_isSome (sites : List Site) (a : String)
    (h : ∃ s ∈ sites, s.asset_type = a) : ∃ u, sitesMapLookup sites a = some u := by
  obtain ⟨s, hs, ha⟩ := h
  have hsome : (sites.reverse.find? (fun s => s.asset_type == a)).isSome := by
    rw [List.find?_isSome]
    exact ⟨s, List.mem_reverse.mpr hs, by simp [ha]⟩
  rcases hf : sites.reverse.find? (fun s => s.asset_type == a) with _ | t
  · rw [hf] at hsome
    exact Bool.noConfusion hsome
  · exact ⟨t.location_uuid, by simp [sitesMapLookup, hf]⟩

/-- When no site has the looked-up asset type, `sitesMapLookup` fails. -/
theorem sitesMapLookup_none (sites : List Site) (a : String)
    (h : ∀ s ∈ sites, s.asset_type ≠ a) : sitesMapLookup sites a = none := by
  unfold sitesMapLookup
  rw [List.find?_eq_none.mpr]
  · rfl
  · intro x hx
    simpa using h x (List.mem_reverse.mp hx)

/-- C5: a record whose asset type matches some site is merged into an
associated record carrying a matching site's identifier (and the record's own
fields); a record whose asset type matches no site is dropped — no associated
record of that asset type appears — with no error and no warning (the merge
produces no log events at all). -/
theorem merge_round_trip (data : List GenRecord) (sites : List Site) (r : GenRecord)
    (hr : r ∈ data) :
    ((∃ s ∈ sites, s.asset_type = r.asset_type) →
      ∃ a ∈ merge_generation_data_with_sites data sites,
        a.asset_type = r.asset_type ∧ a.start_utc = r.start_utc
        ∧ a.power_kw = r.power_kw
        ∧ ∃ s ∈ sites, s.asset_type = r.asset_type ∧ a.site_uuid = s.location_uuid)
    ∧ ((∀ s ∈ sites, s.asset_type ≠ r.asset_type) →
      ∀ a ∈ merge_generation_data_with_sites data sites, a.asset_type ≠ r.asset_type) := by
  constructor
  · intro hex
    obtain ⟨u, hu⟩ := sitesMapLookup_isSome sites r.asset_type hex
    refine ⟨⟨r.asset_type, r.start_utc, r.power_kw, u⟩, ?_, rfl, rfl, rfl, ?_⟩
    · exact List.mem_filterMap.mpr ⟨r, hr, by simp [hu]⟩
    · obtain ⟨s, hs, hty, hl⟩ := sitesMapLookup_some sites r.asset_type u hu
      exact ⟨s, hs, hty, hl.symm⟩
  · intro hnone a hmem hcontra
    have hnl := sitesMapLookup_none sites r.asset_type hnone
    obtain ⟨r', hr', hfr'⟩ := List.mem_filterMap.mp hmem
    rcases hu : sitesMapLookup sites r'.asset_type with _ | u <;> rw [hu] at hfr'
    · exact Option.noConfusion hfr'
    · have ha' : a.asset_type = r'.asset_type := by
        have := Option.some.inj hfr'
        rw [← this]
      rw [ha'] at hcontra
      rw [hcontra, hnl] at hu
      exact Option.noConfusion hu

/-- Witness for C5: one pv record merged against a registry with one matching
pv site is associated with that site's uuid. -/
theorem merge_round_trip_witness :
    ∃ a ∈ merge_generation_data_with_sites [⟨"pv", 0, 5⟩] [⟨1, "pv", "ruvnl", 100⟩],
      a.asset_type = "pv" ∧ a.start_utc = 0 ∧ a.power_kw = 5
      ∧ ∃ s ∈ [(⟨1, "pv", "ruvnl", 100⟩ : Site)],
          s.asset_type = "pv" ∧ a.site_uuid = s.location_uuid :=
  (merge_round_trip [⟨"pv", 0, 5⟩] [⟨1, "pv", "ruvnl", 100⟩] ⟨"pv", 0, 5⟩
      (List.mem_singleton.mpr rfl)).1
    ⟨⟨1, "pv", "ruvnl", 100⟩, List.mem_singleton.mpr rfl, rfl⟩

/-- After `setCapFirst`, looking up the uuid finds the same site with its
capacity overwritten. -/
theorem find?_setCapFirst (l : List Site) (u : Nat) (c : ℚ) (site : Site)
    (h : l.find? (fun s => s.location_uuid == u) = some site) :
    (setCapFirst l u c).find? (fun s => s.location_uuid == u)
      = some { site with capacity_kw := c } := by
  induction l with
  | nil => exact Option.noConfusion h
  | cons s rest ih =>
    by_cases hs : (s.location_uuid == u) = true
    · rw [List.find?_cons_of_pos (p := fun x => x.location_uuid == u) (a := s) rest hs] at h
      have hsite : s = site := Option.some.inj h
      subst hsite
      simp only [setCapFirst, hs, if_true]
      exact List.find?_cons_of_pos rest hs
    · rw [List.find?_cons_of_neg (p := fun x => x.location_uuid == u) (a := s) rest hs] at h
      simp only [setCapFirst, hs, if_false, Bool.false_eq_true]
      rw [List.find?_cons_of_neg (p := fun x => x.location_uuid == u) (a := s)
        (setCapFirst rest u c) hs]
      exact ih h

/-- Applying `setCapFirst` with a capacity at least the found site's current one never
lowers any site's capacity (pointwise along the registry). -/
theorem setCapFirst_mono (l : List Site) (u : Nat) (c : ℚ) (site : Site)
    (h : l.find? (fun s => s.location_uuid == u) = some site)
    (hc : site.capacity_kw ≤ c) :
    List.Forall₂ (fun s t => s.capacity_kw ≤ t.capacity_kw) l (setCapFirst l u c) := by
  induction l with
  | nil => exact Option.noConfusion h
  | cons s rest ih =>
    by_cases hs : (s.location_uuid == u) = true
    · rw [List.find?_cons_of_pos (p := fun x => x.location_uuid == u) (a := s) rest hs] at h
      have hsite : s = site := Option.some.inj h
      subst hsite
      simp only [setCapFirst, hs, if_true]
      exact List.Forall₂.cons hc (List.forall₂_same.mpr fun x _ => le_refl _)
    · rw [List.find?_cons_of_neg (p := fun x => x.location_uuid == u) (a := s) rest hs] at h
      simp only [setCapFirst, hs, if_false, Bool.false_eq_true]
      exact List.Forall₂.cons (le_refl _) (ih h)

/-- C1: persisting a non-empty asset-type group with writes enabled, when the
group's site exists in the registry: if the group's maximum observed power
exceeds the site's current rated capacity, the site's capacity becomes that
maximum; if it does not exceed it, the registry is left unchanged; and in
either case no site's rated capacity decreases. -/
theorem capacity_correction (db : DbState) (a : String) (group : List AssocRecord)
    (g0 : AssocRecord) (site : Site)
    (hhead : group.head? = some g0)
    (hfind : db.sites.find? (fun s => s.location_uuid == g0.site_uuid) = some site) :
    (groupMax group > site.capacity_kw →
      (saveAssetGroup db a group true).1.sites.find?
          (fun s => s.location_uuid == g0.site_uuid)
        = some { site with capacity_kw := groupMax group })
    ∧ (groupMax group ≤ site.capacity_kw →
      (saveAssetGroup db a group true).1.sites = db.sites)
    ∧ List.Forall₂ (fun s t => s.capacity_kw ≤ t.capacity_kw)
        db.sites (saveAssetGroup db a group true).1.sites := by
  rcases group with _ | ⟨g, rest⟩
  · exact Option.noConfusion hhead
  · have hg : g = g0 := by simpa using hhead
    subst hg
    by_cases hgt : groupMax (g :: rest) > site.capacity_kw
    · have hsites : (saveAssetGroup db a (g :: rest) true).1.sites
          = setCapFirst db.sites g.site_uuid (groupMax (g :: rest)) := by
        simp [saveAssetGroup, hfind, hgt]
      refine ⟨fun _ => ?_, fun hle => absurd hgt (not_lt.mpr hle), ?_⟩
      · rw [hsites]
        exact find?_setCapFirst db.sites g.site_uuid (groupMax (g :: rest)) site hfind
      · rw [hsites]
        exact setCapFirst_mono db.sites g.site_uuid (groupMax (g :: rest)) site hfind
          (le_of_lt hgt)
    · have hsites : (saveAssetGroup db a (g :: rest) true).1.sites = db.sites := by
        simp [saveAssetGroup, hfind, hgt]
      refine ⟨fun h => absurd h hgt, fun _ => hsites, ?_⟩
      rw [hsites]
      exact List.forall₂_same.mpr fun x _ => le_refl _

/-- Witness for C1: a 5000 kW reading against a 100 kW pv site raises the
site's capacity to 5000 kW. -/
theorem capacity_correction_witness :
    ([(⟨"pv", 0, 5000, 1⟩ : AssocRecord)].head? = some ⟨"pv", 0, 5000, 1⟩)
    ∧ ([(⟨1, "pv", "ruvnl", 100⟩ : Site)].find? (fun s => s.location_uuid == 1)
        = some ⟨1, "pv", "ruvnl", 100⟩)
    ∧ groupMax [⟨"pv", 0, 5000, 1⟩] > (100 : ℚ)
    ∧ (saveAssetGroup ⟨[⟨1, "pv", "ruvnl", 100⟩], []⟩ "pv" [⟨"pv", 0, 5000, 1⟩] true).1.sites.find?
        (fun s => s.location_uuid == 1)
        = some ⟨1, "pv", "ruvnl", groupMax [⟨"pv", 0, 5000, 1⟩]⟩ :=
  ⟨rfl, rfl, by norm_num [groupMax],
    (capacity_correction ⟨[⟨1, "pv", "ruvnl", 100⟩], []⟩ "pv" [⟨"pv", 0, 5000, 1⟩]
        ⟨"pv", 0, 5000, 1⟩ ⟨1, "pv", "ruvnl", 100⟩ rfl rfl).1
      (by norm_num [groupMax])⟩

/-- C10: persisting a non-empty group with writes enabled whose site uuid
matches no registry site silently skips the capacity correction — the
registry is unchanged and nothing is logged, no error is raised — while the
group's rows are still appended to the generation store. -/
theorem persist_unknown_site (db : DbState) (a : String) (group : List AssocRecord)
    (g0 : AssocRecord)
    (hhead : group.head? = some g0)
    (hfind : db.sites.find? (fun s => s.location_uuid == g0.site_uuid) = none) :
    (saveAssetGroup db a group true).1.sites = db.sites
    ∧ (saveAssetGroup db a group true).1.generation_rows
        = db.generation_rows ++ group.map rowOf
    ∧ (saveAssetGroup db a group true).2 = [] := by
  rcases group with _ | ⟨g, rest⟩
  · exact Option.noConfusion hhead
  · have hg : g = g0 := by simpa using hhead
    subst hg
    refine ⟨?_, ?_, ?_⟩ <;> simp [saveAssetGroup, hfind]

/-- Witness for C10: a group pointing at uuid 7 against a registry holding
only uuid 1 — rows are inserted, sites untouched, nothing logged. -/
theorem persist_unknown_site_witness :
    ([(⟨"pv", 0, 5, 7⟩ : AssocRecord)].head? = some ⟨"pv", 0, 5, 7⟩)
    ∧ ([(⟨1, "pv", "ruvnl", 100⟩ : Site)].find? (fun s => s.location_uuid == 7) = none)
    ∧ (saveAssetGroup ⟨[⟨1, "pv", "ruvnl", 100⟩], []⟩ "pv" [⟨"pv", 0, 5, 7⟩] true).1.sites
        = [⟨1, "pv", "ruvnl", 100⟩]
    ∧ (saveAssetGroup ⟨[⟨1, "pv", "ruvnl", 100⟩], []⟩ "pv" [⟨"pv", 0, 5, 7⟩] true).1.generation_rows
        = [] ++ ([⟨"pv", 0, 5, 7⟩] : List AssocRecord).map rowOf
    ∧ (saveAssetGroup ⟨[⟨1, "pv", "ruvnl", 100⟩], []⟩ "pv" [⟨"pv", 0, 5, 7⟩] true).2 = [] :=
  ⟨rfl, rfl,
    (persist_unknown_site ⟨[⟨1, "pv", "ruvnl", 100⟩], []⟩ "pv" [⟨"pv", 0, 5, 7⟩]
        ⟨"pv", 0, 5, 7⟩ rfl rfl).1,
    (persist_unknown_site ⟨[⟨1, "pv", "ruvnl", 100⟩], []⟩ "pv" [⟨"pv", 0, 5, 7⟩]
        ⟨"pv", 0, 5, 7⟩ rfl rfl).2.1,
    (persist_unknown_site ⟨[⟨1, "pv", "ruvnl", 100⟩], []⟩ "pv" [⟨"pv", 0, 5, 7⟩]
        ⟨"pv", 0, 5, 7⟩ rfl rfl).2.2⟩

/-- With writes disabled, one per-asset step leaves the database untouched
and, for a non-empty group, logs exactly the rendered rows. -/
theorem saveAssetGroup_dry (db : DbState) (a : String) (g : List AssocRecord) :
    (saveAssetGroup db a g false).1 = db
    ∧ (g ≠ [] → (saveAssetGroup db a g false).2 = [LogEvent.render a (g.map rowOf)]) := by
  rcases g with _ | ⟨g0, rest⟩ <;> simp [saveAssetGroup]

/-- C6: `save_generation_data` with writes disabled performs no store
mutation at all — the registry and the generation rows are exactly as before
— and each non-empty asset-type group is rendered to the log instead. -/
theorem persist_dry_run (db : DbState) (data : List AssocRecord) :
    (save_generation_data db data false).1 = db
    ∧ ((data.filter (fun r => r.asset_type == "pv")) ≠ [] →
        LogEvent.render "pv" ((data.filter (fun r => r.asset_type == "pv")).map rowOf)
          ∈ (save_generation_data db data false).2)
    ∧ ((data.filter (fun r => r.asset_type == "wind")) ≠ [] →
        LogEvent.render "wind" ((data.filter (fun r => r.asset_type == "wind")).map rowOf)
          ∈ (save_generation_data db data false).2) := by
  have h1 := saveAssetGroup_dry db "pv" (data.filter (fun r => r.asset_type == "pv"))
  simp only [save_generation_data, h1.1]
  have h2 := saveAssetGroup_dry db "wind" (data.filter (fun r => r.asset_type == "wind"))
  refine ⟨h2.1, fun hne => ?_, fun hne => ?_⟩
  · rw [h1.2 hne]
    simp
  · rw [h2.2 hne]
    simp

/-- Witness for C6 on a two-record data set against an empty registry. -/
theorem persist_dry_run_witness :
    (save_generation_data ⟨[], []⟩ [⟨"pv", 0, 5, 1⟩, ⟨"wind", 0, 6, 2⟩] false).1 = ⟨[], []⟩
    ∧ LogEvent.render "pv"
        ((([⟨"pv", 0, 5, 1⟩, ⟨"wind", 0, 6, 2⟩] : List AssocRecord).filter
            (fun r => r.asset_type == "pv")).map rowOf)
        ∈ (save_generation_data ⟨[], []⟩ [⟨"pv", 0, 5, 1⟩, ⟨"wind", 0, 6, 2⟩] false).2
    ∧ LogEvent.render "wind"
        ((([⟨"pv", 0, 5, 1⟩, ⟨"wind", 0, 6, 2⟩] : List AssocRecord).filter
            (fun r => r.asset_type == "wind")).map rowOf)
        ∈ (save_generation_data ⟨[], []⟩ [⟨"pv", 0, 5, 1⟩, ⟨"wind", 0, 6, 2⟩] false).2 :=
  ⟨(persist_dry_run ⟨[], []⟩ [⟨"pv", 0, 5, 1⟩, ⟨"wind", 0, 6, 2⟩]).1,
    (persist_dry_run ⟨[], []⟩ [⟨"pv", 0, 5, 1⟩, ⟨"wind", 0, 6, 2⟩]).2.1 (by simp),
    (persist_dry_run ⟨[], []⟩ [⟨"pv", 0, 5, 1⟩, ⟨"wind", 0, 6, 2⟩]).2.2 (by simp)⟩
